import Mathlib

/-! Formal model of the request gateway middleware in app/middleware.py and of
the asynchronous vector-store adapter in
app/services/vector_store/async_pg_vector.py.

Headers are modelled as association lists of name/value pairs, Python
truthiness of optional strings is made explicit, and the JWT decoding
routine of the external library is an oracle passed as a function argument
that returns either the decoded payload or the error message of the raised
exception. -/

/-- Python truthiness of an optional string: an absent value and the empty
string are falsy, every other string is truthy. -/
def truthyStr : Option String → Bool
  | none => false
  | some s => decide (¬ s = "")

/-- Helper for Python str.split with a one-character separator: consume the
characters, cutting at each separator occurrence. -/
def pySplitAux (sep : Char) : List Char → List Char → List (List Char)
  | [], acc => [acc.reverse]
  | c :: rest, acc =>
    if c == sep then acc.reverse :: pySplitAux sep rest []
    else pySplitAux sep rest (c :: acc)

/-- Python str.split with a one-character separator: the empty string gives
one empty piece, n separators give n plus one pieces. -/
def pySplit (s : String) (sep : Char) : List String :=
  (pySplitAux sep s.data []).map String.mk

/-- Python str.startswith on whole strings. -/
def pyStartsWith (s pre : String) : Bool :=
  pre.data.isPrefixOf s.data

/-- Header lookup by exact name, first match wins; models the dict-style
access request.headers.get(name) returning None when absent. -/
def getHeader : List (String × String) → String → Option String
  | [], _ => none
  | p :: rest, k => if p.fst == k then some p.snd else getHeader rest k

/-- Python or on two optional strings: the first operand when truthy,
otherwise the second operand. -/
def pyOr (a b : Option String) : Option String :=
  if truthyStr a then a else b

/-- The trace id extracted by correlation_middleware before the freshness
fallback. When a truthy traceparent header exists, element 1 of its split on
the hyphen is taken and an IndexError yields None; otherwise the chain of
the three custom headers joined by Python or is used. -/
def rawTraceId (hs : List (String × String)) : Option String :=
  let traceparent := getHeader hs "traceparent"
  if truthyStr traceparent then
    (pySplit (traceparent.getD "") '-').get? 1
  else
    pyOr (pyOr (getHeader hs "X-Trace-ID") (getHeader hs "X-Request-ID"))
      (getHeader hs "X-Correlation-ID")

/-- Models the freshly generated identifier uuid.uuid4().hex ++
uuid.uuid4().hex sliced to its first 16 characters, where u1 and u2 stand
for the two 32-character hexadecimal digests produced by the uuid library;
slicing is character based. -/
def genTraceId (u1 u2 : String) : String :=
  u1 ++ String.mk (u2.data.take 16)

/-- The trace identifier resolved by correlation_middleware: the raw
extraction when truthy, otherwise the freshly generated identifier. -/
def resolveTraceId (hs : List (String × String)) (fresh : String) : String :=
  let t := rawTraceId hs
  if truthyStr t then t.getD "" else fresh

/-- An HTTP response as the middleware observes it: a status code and
mutable headers. -/
structure Response where
  status : Nat
  headers : List (String × String)

/-- Setting a response header: previous entries for the name are removed. -/
def removeHeader : List (String × String) → String → List (String × String)
  | [], _ => []
  | p :: rest, k => if p.fst == k then removeHeader rest k else p :: removeHeader rest k

/-- Setting a response header: drop previous entries for the name and append
the new pair, modelling item assignment on mutable headers. -/
def setHeader (hs : List (String × String)) (k v : String) : List (String × String) :=
  removeHeader hs k ++ [(k, v)]

/-- correlation_middleware: resolve the trace id, run the downstream stage,
which can observe the resolved id through the context variable and the
request state (modelled by passing the id to call_next), then set the
X-Trace-ID and X-Request-ID headers on the returned response. -/
def correlation_middleware (hs : List (String × String)) (fresh : String)
    (call_next : String → Response) : Response :=
  let trace_id := resolveTraceId hs fresh
  let response := call_next trace_id
  { response with
    headers := setHeader (setHeader response.headers "X-Trace-ID" trace_id)
      "X-Request-ID" trace_id }

/-- The decoded claim set of a verified token: the optional numeric exp
claim, and the remaining claims as an opaque association list. -/
structure Payload where
  exp : Option Int
  claims : List (String × String)
deriving DecidableEq

/-- The outcome of the security stage: either the downstream handler runs,
with the optional payload that was attached to request-state user, or a
JSON error response short-circuits the request. -/
inductive SecResponse where
  | handler (user : Option Payload)
  | jsonError (status : Nat) (detail : String)
deriving DecidableEq

/-- The allow-list of operational endpoints that bypass the security
stage. -/
def exemptPaths : List String := ["/docs", "/openapi.json", "/health"]

/-- Whether the Authorization header passes the form check: present, truthy
and starting with the Bearer prefix; an absent or empty header fails either
conjunct of the source condition. -/
def bearerOk : Option String → Bool
  | none => false
  | some a => pyStartsWith a "Bearer "

/-- The token part of the header: element 1 of the split on a single space;
when the header starts with the Bearer prefix that element always exists. -/
def tokenOf (authorization : Option String) : String :=
  ((pySplit (authorization.getD "") ' ').get? 1).getD ""

/-- The expiry test: skipped when exp is absent or falsy (zero), otherwise
true exactly when the current time is strictly after the expiry
timestamp. -/
def token_expired (now : Int) (exp : Option Int) : Bool :=
  match exp with
  | none => false
  | some e => decide (¬ e = 0) && decide (now > e)

/-- security_middleware: exempt paths forward with no check; a missing or
empty secret forwards fail-open; a missing or malformed Authorization
header, a failed decode, and an expired token each produce a 401 JSON
error; on full success the request is forwarded with the payload attached
as the request-state user. The decode argument models jwt.decode with the
single fixed HS256 algorithm, applied to the extracted token and the
secret, returning the payload or the message of the raised error. -/
def security_middleware (decode : String → String → Except String Payload)
    (now : Int) (jwt_secret : Option String) (path : String)
    (authorization : Option String) : SecResponse :=
  if exemptPaths.contains path then
    SecResponse.handler none
  else if !truthyStr jwt_secret then
    SecResponse.handler none
  else if !bearerOk authorization then
    SecResponse.jsonError 401 "Missing or invalid Authorization header"
  else
    match decode (tokenOf authorization) (jwt_secret.getD "") with
    | Except.error e => SecResponse.jsonError 401 ("Invalid token: " ++ e)
    | Except.ok payload =>
      if token_expired now payload.exp then
        SecResponse.jsonError 401 "Token has expired"
      else
        SecResponse.handler (some payload)

/-- The request-state user after the security stage ran: the payload
attached on the success path, nothing on a short-circuiting JSON error. -/
def userOf : SecResponse → Option Payload
  | SecResponse.handler u => u
  | SecResponse.jsonError _ _ => none

/-- copy_context: capture the ambient context of the calling task at call
time. Contexts are kept abstract as a type parameter; an instance could be
the mapping from context-variable names to values holding the trace id. -/
def copy_context {Ctx : Type} (ambient : Ctx) : Ctx := ambient

/-- Context.run: evaluate a context-reading computation with the given
context installed as its ambient context. -/
def ctxRun {Ctx α : Type} (ctx : Ctx) (f : Ctx → α) : α := f ctx

/-- run_in_executor of the runnable library: the executor evaluates the job
under the worker ambient context, which need not be the caller context. -/
def run_in_executor {Ctx α : Type} (workerCtx : Ctx) (job : Ctx → α) : α :=
  job workerCtx

/-- context_aware_run_in_executor from the source: capture the caller
context, then hand the executor a job that runs the wrapped function inside
the captured context, ignoring the worker ambient context. -/
def context_aware_run_in_executor {Ctx α : Type} (callerCtx workerCtx : Ctx)
    (func : Ctx → α) : α :=
  let ctx := copy_context callerCtx
  run_in_executor workerCtx (fun _ambient => ctxRun ctx func)

/-- The synchronous base class ExtendedPgVector, an external collaborator of
this excerpt: each method is an opaque function that may read the ambient
context, for example when logging with the trace id. Document, embedding,
score and filter values are abstract type parameters; delete_multiple
models the private method that delete forwards to. -/
structure ExtendedPgVector (Ctx Doc Emb Score Filt : Type) where
  get_all_ids : Ctx → List String
  get_filtered_ids : List String → Ctx → List String
  get_documents_by_ids : List String → Ctx → List Doc
  delete_multiple : Option (List String) → Bool → Ctx → Unit
  similarity_search_with_score_by_vector :
    Emb → Nat → Option Filt → Ctx → List (Doc × Score)
  add_documents : List Doc → Option (List String) → Ctx → List String

/-- AsyncPgVector extends the synchronous base class; its async methods are
modelled as functions of the caller context and of the ambient context of
the worker executing the offloaded call. -/
structure AsyncPgVector (Ctx Doc Emb Score Filt : Type) where
  toExtendedPgVector : ExtendedPgVector Ctx Doc Emb Score Filt

/-- Async get_all_ids: offload the synchronous call through
context_aware_run_in_executor. -/
def AsyncPgVector.get_all_ids {Ctx Doc Emb Score Filt : Type}
    (self : AsyncPgVector Ctx Doc Emb Score Filt)
    (callerCtx workerCtx : Ctx) : List String :=
  context_aware_run_in_executor callerCtx workerCtx
    self.toExtendedPgVector.get_all_ids

/-- Async get_filtered_ids: offload the synchronous call through
context_aware_run_in_executor. -/
def AsyncPgVector.get_filtered_ids {Ctx Doc Emb Score Filt : Type}
    (self : AsyncPgVector Ctx Doc Emb Score Filt) (ids : List String)
    (callerCtx workerCtx : Ctx) : List String :=
  context_aware_run_in_executor callerCtx workerCtx
    (self.toExtendedPgVector.get_filtered_ids ids)

/-- Async get_documents_by_ids: offload the synchronous call through
context_aware_run_in_executor. -/
def AsyncPgVector.get_documents_by_ids {Ctx Doc Emb Score Filt : Type}
    (self : AsyncPgVector Ctx Doc Emb Score Filt) (ids : List String)
    (callerCtx workerCtx : Ctx) : List Doc :=
  context_aware_run_in_executor callerCtx workerCtx
    (self.toExtendedPgVector.get_documents_by_ids ids)

/-- Async delete: offload the private synchronous delete_multiple through
context_aware_run_in_executor. -/
def AsyncPgVector.delete {Ctx Doc Emb Score Filt : Type}
    (self : AsyncPgVector Ctx Doc Emb Score Filt) (ids : Option (List String))
    (collection_only : Bool) (callerCtx workerCtx : Ctx) : Unit :=
  context_aware_run_in_executor callerCtx workerCtx
    (self.toExtendedPgVector.delete_multiple ids collection_only)

/-- Async similarity search: offload the synchronous call through
context_aware_run_in_executor. -/
def AsyncPgVector.asimilarity_search_with_score_by_vector
    {Ctx Doc Emb Score Filt : Type}
    (self : AsyncPgVector Ctx Doc Emb Score Filt) (embedding : Emb) (k : Nat)
    (filter : Option Filt) (callerCtx workerCtx : Ctx) : List (Doc × Score) :=
  context_aware_run_in_executor callerCtx workerCtx
    (self.toExtendedPgVector.similarity_search_with_score_by_vector embedding k filter)

/-- Async aadd_documents: offload the synchronous add_documents through
context_aware_run_in_executor. -/
def AsyncPgVector.aadd_documents {Ctx Doc Emb Score Filt : Type}
    (self : AsyncPgVector Ctx Doc Emb Score Filt) (documents : List Doc)
    (ids : Option (List String)) (callerCtx workerCtx : Ctx) : List String :=
  context_aware_run_in_executor callerCtx workerCtx
    (self.toExtendedPgVector.add_documents documents ids)

theorem getHeader_removeHeader_self (hs : List (String × String)) (k : String) :
    getHeader (removeHeader hs k) k = none := by
  induction hs with
  | nil => rfl
  | cons p t ih =>
    by_cases h : p.fst = k
    · simp [removeHeader, h, ih]
    · simp [removeHeader, getHeader, h, ih]

theorem getHeader_removeHeader_ne (hs : List (String × String)) (k k2 : String)
    (h : ¬ k2 = k) : getHeader (removeHeader hs k) k2 = getHeader hs k2 := by
  induction hs with
  | nil => rfl
  | cons p t ih =>
    by_cases hp : p.fst = k
    · have hpk2 : ¬ p.fst = k2 := by
        intro hc
        exact h (by rw [← hc, hp])
      have hkk2 : ¬ k = k2 := fun hc => h hc.symm
      simp [removeHeader, getHeader, hp, hpk2, hkk2, ih]
    · by_cases hp2 : p.fst = k2
      · simp [removeHeader, getHeader, hp, hp2, h, ih]
      · simp [removeHeader, getHeader, hp, hp2, h, ih]

theorem getHeader_append (l1 l2 : List (String × String)) (k : String) :
    getHeader (l1 ++ l2) k =
      (match getHeader l1 k with
       | some v => some v
       | none => getHeader l2 k) := by
  induction l1 with
  | nil => rfl
  | cons p t ih =>
    by_cases h : p.fst = k
    · simp [getHeader, h]
    · simp [getHeader, h, ih]

theorem getHeader_setHeader_self (hs : List (String × String)) (k v : String) :
    getHeader (setHeader hs k v) k = some v := by
  rw [setHeader, getHeader_append, getHeader_removeHeader_self]
  simp [getHeader]

theorem getHeader_setHeader_ne (hs : List (String × String)) (k k2 v : String)
    (h : ¬ k2 = k) : getHeader (setHeader hs k v) k2 = getHeader hs k2 := by
  rw [setHeader, getHeader_append, getHeader_removeHeader_ne hs k k2 h]
  cases hg : getHeader hs k2 with
  | some w => rfl
  | none =>
    have : ¬ k = k2 := fun hc => h hc.symm
    simp [getHeader, this]

/-- C4: every async method of AsyncPgVector runs its underlying synchronous
call inside the copy of the caller context captured at call time, so
whatever the worker ambient context is, the offloaded function observes
exactly the caller context, trace identifier included. -/
theorem async_methods_preserve_context {Ctx Doc Emb Score Filt : Type}
    (self : AsyncPgVector Ctx Doc Emb Score Filt) (callerCtx workerCtx : Ctx)
    (ids : List String) (oids : Option (List String)) (collection_only : Bool)
    (embedding : Emb) (k : Nat) (filter : Option Filt) (documents : List Doc) :
    AsyncPgVector.get_all_ids self callerCtx workerCtx =
      self.toExtendedPgVector.get_all_ids callerCtx ∧
    AsyncPgVector.get_filtered_ids self ids callerCtx workerCtx =
      self.toExtendedPgVector.get_filtered_ids ids callerCtx ∧
    AsyncPgVector.get_documents_by_ids self ids callerCtx workerCtx =
      self.toExtendedPgVector.get_documents_by_ids ids callerCtx ∧
    AsyncPgVector.delete self oids collection_only callerCtx workerCtx =
      self.toExtendedPgVector.delete_multiple oids collection_only callerCtx ∧
    AsyncPgVector.asimilarity_search_with_score_by_vector self embedding k
        filter callerCtx workerCtx =
      self.toExtendedPgVector.similarity_search_with_score_by_vector embedding
        k filter callerCtx ∧
    AsyncPgVector.aadd_documents self documents oids callerCtx workerCtx =
      self.toExtendedPgVector.add_documents documents oids callerCtx :=
  ⟨rfl, rfl, rfl, rfl, rfl, rfl⟩

/-- C6: on an exempt path the security stage forwards with no user attached,
and its outcome is independent of the Authorization header and of every
other authentication input. -/
theorem exempt_path_no_auth_check
    (decode1 decode2 : String → String → Except String Payload)
    (now1 now2 : Int) (secret1 secret2 : Option String) (path : String)
    (auth1 auth2 : Option String) (h : path ∈ exemptPaths) :
    security_middleware decode1 now1 secret1 path auth1 =
      SecResponse.handler none ∧
    security_middleware decode1 now1 secret1 path auth1 =
      security_middleware decode2 now2 secret2 path auth2 := by
  constructor <;> simp [security_middleware, h]

theorem exempt_path_no_auth_check_witness :
    "/health" ∈ exemptPaths ∧
    (security_middleware (fun _ _ => Except.error "bad") 10 (some "secret")
        "/health" none = SecResponse.handler none ∧
      security_middleware (fun _ _ => Except.error "bad") 10 (some "secret")
        "/health" none =
        security_middleware (fun _ _ => Except.ok (Payload.mk none [])) 20 none
          "/health" (some "Bearer tok")) :=
  ⟨by decide,
    exempt_path_no_auth_check (fun _ _ => Except.error "bad")
      (fun _ _ => Except.ok (Payload.mk none [])) 10 20 (some "secret") none
      "/health" none (some "Bearer tok") (by decide)⟩

/-- C7: with no secret in the process environment the security stage
forwards every request on a non exempt path with no user attached and never
returns a 401, whatever the Authorization header holds. -/
theorem fail_open_without_secret
    (decode : String → String → Except String Payload) (now : Int)
    (path : String) (auth : Option String)
    (h : path ∉ exemptPaths) :
    security_middleware decode now none path auth = SecResponse.handler none := by
  simp [security_middleware, h, truthyStr]

theorem fail_open_without_secret_witness :
    "/documents" ∉ exemptPaths ∧
    security_middleware (fun _ _ => Except.error "bad") 10 none "/documents"
      none = SecResponse.handler none :=
  ⟨by decide,
    fail_open_without_secret (fun _ _ => Except.error "bad") 10 "/documents"
      none (by decide)⟩

/-- C8: on a non exempt path with a configured secret, an absent
Authorization header or one that does not start with the Bearer prefix is
rejected with the literal 401 body and the handler is not reached. -/
theorem invalid_auth_header_rejected
    (decode : String → String → Except String Payload) (now : Int)
    (s path : String) (auth : Option String)
    (hpath : path ∉ exemptPaths) (hs : ¬ s = "")
    (hb : bearerOk auth = false) :
    security_middleware decode now (some s) path auth =
      SecResponse.jsonError 401 "Missing or invalid Authorization header" := by
  simp [security_middleware, hpath, truthyStr, hs, hb]

theorem invalid_auth_header_rejected_witness :
    ("/documents" ∉ exemptPaths ∧ ¬ "secret" = "" ∧
      bearerOk (some "Basic abc") = false) ∧
    security_middleware (fun _ _ => Except.ok (Payload.mk none [])) 10
      (some "secret") "/documents" (some "Basic abc") =
      SecResponse.jsonError 401 "Missing or invalid Authorization header" :=
  ⟨⟨by decide, by decide, by decide⟩,
    invalid_auth_header_rejected (fun _ _ => Except.ok (Payload.mk none [])) 10
      "secret" "/documents" (some "Basic abc") (by decide) (by decide)
      (by decide)⟩

/-- C10: when the decoded payload carries an exp claim equal to zero, the
falsy value makes the expiry comparison be skipped and the request is
forwarded with the payload attached, whatever the current time is. -/
theorem falsy_exp_skips_expiry_check
    (decode : String → String → Except String Payload) (now : Int)
    (s path : String) (auth : Option String) (p : Payload)
    (hpath : path ∉ exemptPaths) (hs : ¬ s = "")
    (hb : bearerOk auth = true)
    (hd : decode (tokenOf auth) s = Except.ok p) (he : p.exp = some 0) :
    security_middleware decode now (some s) path auth =
      SecResponse.handler (some p) := by
  have hexp : token_expired now p.exp = false := by
    rw [he]
    simp [token_expired]
  simp [security_middleware, hpath, truthyStr, hs, hb, hd, hexp]

theorem falsy_exp_skips_expiry_check_witness :
    ("/query" ∉ exemptPaths ∧ ¬ "secret" = "" ∧
      bearerOk (some "Bearer tok") = true ∧
      (Payload.mk (some 0) []).exp = some 0) ∧
    security_middleware (fun _ _ => Except.ok (Payload.mk (some 0) []))
      1760227200 (some "secret") "/query" (some "Bearer tok") =
      SecResponse.handler (some (Payload.mk (some 0) [])) :=
  ⟨⟨by decide, by decide, by decide, rfl⟩,
    falsy_exp_skips_expiry_check (fun _ _ => Except.ok (Payload.mk (some 0) []))
      1760227200 "secret" "/query" (some "Bearer tok") (Payload.mk (some 0) [])
      (by decide) (by decide) (by decide) rfl rfl⟩

/-- C9: for every request and every downstream outcome, the response of the
correlation stage carries X-Trace-ID and X-Request-ID headers whose values
are both exactly the resolved trace identifier, and they override whatever
the downstream stage had put there. -/
theorem trace_headers_always_set (hs : List (String × String)) (fresh : String)
    (call_next : String → Response) :
    getHeader (correlation_middleware hs fresh call_next).headers
        "X-Trace-ID" = some (resolveTraceId hs fresh) ∧
    getHeader (correlation_middleware hs fresh call_next).headers
        "X-Request-ID" = some (resolveTraceId hs fresh) := by
  unfold correlation_middleware
  refine ⟨?_, ?_⟩
  · rw [getHeader_setHeader_ne _ _ _ _ (by decide), getHeader_setHeader_self]
  · rw [getHeader_setHeader_self]

/-- C1 counterexample: a correctly verifying token whose exp claim is the
integer zero, a timestamp strictly before the chosen current time, is not
rejected with the expired-token 401 at all; the request is forwarded with
the payload attached, because the falsy claim value skips the expiry
comparison. -/
theorem expired_epoch_token_forwarded_cex :
    security_middleware (fun _ _ => Except.ok (Payload.mk (some 0) []))
        1760227200 (some "secret") "/documents" (some "Bearer tok") =
      SecResponse.handler (some (Payload.mk (some 0) [])) ∧
    ((0 : Int) < 1760227200) ∧
    ¬ security_middleware (fun _ _ => Except.ok (Payload.mk (some 0) []))
        1760227200 (some "secret") "/documents" (some "Bearer tok") =
      SecResponse.jsonError 401 "Token has expired" :=
  ⟨by decide, by decide, by decide⟩

/-- C1 amended: on a non exempt path with a configured secret, a token that
decodes successfully and carries a non zero exp claim whose timestamp is
strictly before the current time is rejected with status 401 and the body
detail Token has expired, and the handler is not invoked. -/
theorem expired_token_rejected
    (decode : String → String → Except String Payload) (now : Int)
    (s path : String) (auth : Option String) (p : Payload) (e : Int)
    (hpath : path ∉ exemptPaths) (hs : ¬ s = "") (hb : bearerOk auth = true)
    (hd : decode (tokenOf auth) s = Except.ok p) (he : p.exp = some e)
    (he0 : ¬ e = 0) (hlt : e < now) :
    security_middleware decode now (some s) path auth =
      SecResponse.jsonError 401 "Token has expired" := by
  have hexp : token_expired now p.exp = true := by
    rw [he]
    simp only [token_expired, Bool.and_eq_true, decide_eq_true_eq]
    exact ⟨he0, hlt⟩
  simp [security_middleware, hpath, truthyStr, hs, hb, hd, hexp]

theorem expired_token_rejected_witness :
    ("/documents" ∉ exemptPaths ∧ ¬ "secret" = "" ∧
      bearerOk (some "Bearer tok") = true ∧
      (Payload.mk (some 5) []).exp = some 5 ∧ ¬ (5 : Int) = 0 ∧
      (5 : Int) < 100) ∧
    security_middleware (fun _ _ => Except.ok (Payload.mk (some 5) [])) 100
      (some "secret") "/documents" (some "Bearer tok") =
      SecResponse.jsonError 401 "Token has expired" :=
  ⟨⟨by decide, by decide, by decide, rfl, by decide, by decide⟩,
    expired_token_rejected (fun _ _ => Except.ok (Payload.mk (some 5) [])) 100
      "secret" "/documents" (some "Bearer tok") (Payload.mk (some 5) []) 5
      (by decide) (by decide) (by decide) rfl rfl (by decide) (by decide)⟩

/-- C2: the identifier the code generates when no trace header is present is
the value the correlation stage resolves, but its length is 48 characters,
not 32: the concatenation of one whole 32-character digest with the first
16 characters of a second digest. -/
theorem generated_trace_id_length (u1 u2 : String)
    (h1 : u1.length = 32) (h2 : u2.length = 32) :
    resolveTraceId [] (genTraceId u1 u2) = genTraceId u1 u2 ∧
    (genTraceId u1 u2).length = 48 := by
  constructor
  · rfl
  · have hd1 : u1.data.length = 32 := h1
    have hd2 : u2.data.length = 32 := h2
    rw [genTraceId, String.length_append]
    show u1.data.length + (List.take 16 u2.data).length = 48
    rw [List.length_take, hd1, hd2]
    decide

theorem generated_trace_id_length_witness :
    ("0123456789abcdef0123456789abcdef" : String).length = 32 ∧
    resolveTraceId []
        (genTraceId "0123456789abcdef0123456789abcdef"
          "fedcba9876543210fedcba9876543210") =
      genTraceId "0123456789abcdef0123456789abcdef"
        "fedcba9876543210fedcba9876543210" ∧
    (genTraceId "0123456789abcdef0123456789abcdef"
        "fedcba9876543210fedcba9876543210").length = 48 :=
  ⟨by decide,
    generated_trace_id_length "0123456789abcdef0123456789abcdef"
      "fedcba9876543210fedcba9876543210" (by decide) (by decide)⟩

/-- C3 counterexample: a traceparent with only two hyphen-delimited fields
does yield its second field as the trace id, a present X-Trace-ID header
notwithstanding; a traceparent with no hyphen at all falls through to the
freshly generated identifier, not to the custom headers. -/
theorem traceparent_two_fields_cex :
    resolveTraceId [("traceparent", "a-b"), ("X-Trace-ID", "custom")] "fresh"
      = "b" ∧
    ¬ resolveTraceId [("traceparent", "a-b"), ("X-Trace-ID", "custom")] "fresh"
      = "custom" ∧
    resolveTraceId [("traceparent", "nohyphen"), ("X-Trace-ID", "custom")]
      "fresh" = "fresh" :=
  ⟨by decide, by decide, by decide⟩

/-- C3 amended: when a non-empty traceparent header is present the custom
headers are never consulted: when the split on the hyphen has a non-empty
element 1 (two fields suffice) that element is the resolved trace id, and
otherwise (no hyphen, or an empty second field) the freshly generated
identifier is used. -/
theorem traceparent_precedence (tp custom fresh : String) (h : ¬ tp = "") :
    resolveTraceId [("traceparent", tp), ("X-Trace-ID", custom)] fresh =
      resolveTraceId [("traceparent", tp)] fresh ∧
    (¬ ((pySplit tp '-').get? 1).getD "" = "" →
      resolveTraceId [("traceparent", tp), ("X-Trace-ID", custom)] fresh =
        ((pySplit tp '-').get? 1).getD "") ∧
    (((pySplit tp '-').get? 1).getD "" = "" →
      resolveTraceId [("traceparent", tp), ("X-Trace-ID", custom)] fresh =
        fresh) := by
  have hraw : ∀ rest, rawTraceId (("traceparent", tp) :: rest) =
      (pySplit tp '-').get? 1 := by
    intro rest
    simp [rawTraceId, getHeader, truthyStr, h]
  refine ⟨?_, ?_, ?_⟩
  · rw [resolveTraceId, resolveTraceId, hraw, hraw]
  · intro hne
    rw [resolveTraceId, hraw]
    cases hg : (pySplit tp '-').get? 1 with
    | none =>
      rw [hg] at hne
      exact absurd rfl hne
    | some second =>
      rw [hg] at hne
      simp only [Option.getD_some] at hne
      simp [truthyStr, hne]
  · intro hemp
    rw [resolveTraceId, hraw]
    cases hg : (pySplit tp '-').get? 1 with
    | none => simp [truthyStr]
    | some second =>
      rw [hg] at hemp
      simp only [Option.getD_some] at hemp
      simp [truthyStr, hemp]

theorem traceparent_precedence_witness :
    ¬ ("a-b" : String) = "" ∧
    (resolveTraceId [("traceparent", "a-b"), ("X-Trace-ID", "c")] "f" =
        resolveTraceId [("traceparent", "a-b")] "f" ∧
      (¬ ((pySplit "a-b" '-').get? 1).getD "" = "" →
        resolveTraceId [("traceparent", "a-b"), ("X-Trace-ID", "c")] "f" =
          ((pySplit "a-b" '-').get? 1).getD "") ∧
      (((pySplit "a-b" '-').get? 1).getD "" = "" →
        resolveTraceId [("traceparent", "a-b"), ("X-Trace-ID", "c")] "f" =
          "f")) :=
  ⟨by decide, traceparent_precedence "a-b" "c" "f" (by decide)⟩

/-- C5: the request-state user equals a given payload exactly when the
secret is configured and truthy, the path is not exempt, the Authorization
header has the Bearer form, decoding the extracted token against the secret
returns that payload, and the expiry test does not fire; in particular no
user is attached on exempt paths, under fail-open, or on any 401
rejection. -/
theorem user_state_iff_verified
    (decode : String → String → Except String Payload) (now : Int)
    (jwt_secret : Option String) (path : String)
    (authorization : Option String) (p : Payload) :
    userOf (security_middleware decode now jwt_secret path authorization) =
        some p ↔
      (path ∉ exemptPaths ∧ truthyStr jwt_secret = true ∧
        bearerOk authorization = true ∧
        decode (tokenOf authorization) (jwt_secret.getD "") = Except.ok p ∧
        token_expired now p.exp = false) := by
  by_cases hex : path ∈ exemptPaths
  · simp [security_middleware, hex, userOf]
  · cases hsec : truthyStr jwt_secret with
    | false => simp [security_middleware, hex, hsec, userOf]
    | true =>
      cases hb : bearerOk authorization with
      | false => simp [security_middleware, hex, hsec, hb, userOf]
      | true =>
        cases hd : decode (tokenOf authorization) (jwt_secret.getD "") with
        | error e => simp [security_middleware, hex, hsec, hb, hd, userOf]
        | ok payload =>
          cases hexp : token_expired now payload.exp with
          | true =>
            simp [security_middleware, hex, hsec, hb, hd, hexp, userOf]
            rintro rfl
            exact hexp
          | false =>
            simp [security_middleware, hex, hsec, hb, hd, hexp, userOf]
            rintro rfl
            exact hexp

example : resolveTraceId [("traceparent", "00-abc-def-01")] "f" = "abc" := by decide
example : resolveTraceId [("traceparent", "a-b"), ("X-Trace-ID", "c")] "f" = "b" := by decide
example : resolveTraceId [("traceparent", "nohyphen"), ("X-Trace-ID", "c")] "f" = "f" := by decide
example : resolveTraceId [("X-Request-ID", "r")] "f" = "r" := by decide
example : resolveTraceId [] "f" = "f" := by decide
example :
    security_middleware (fun _ _ => Except.ok (Payload.mk (some 0) [])) 1760227200
      (some "secret") "/documents" (some "Bearer tok")
    = SecResponse.handler (some (Payload.mk (some 0) [])) := by decide
example :
    security_middleware (fun _ _ => Except.ok (Payload.mk (some 5) [])) 10
      (some "secret") "/documents" (some "Bearer tok")
    = SecResponse.jsonError 401 "Token has expired" := by decide
example :
    security_middleware (fun _ _ => Except.error "Signature verification failed") 10
      (some "secret") "/documents" (some "Bearer tok")
    = SecResponse.jsonError 401 "Invalid token: Signature verification failed" := by decide
example :
    security_middleware (fun _ _ => Except.error "x") 10 (some "secret") "/documents" none
    = SecResponse.jsonError 401 "Missing or invalid Authorization header" := by decide
example :
    security_middleware (fun _ _ => Except.error "x") 10 none "/documents" none
    = SecResponse.handler none := by decide
example :
    security_middleware (fun _ _ => Except.error "x") 10 (some "secret") "/health"
      (some "garbage")
    = SecResponse.handler none := by decide
